import Mathlib

/-!
# WB_calc: the landing page component `Home`

Shallow embedding of `frontend/src/pages/Home.js`.

`Home` is an arrow function without parameters whose body is one JSX
expression.  A JSX expression `<T a="v">children</T>` denotes the element
object built from the type `T`, the attributes and the children, where the
literal text between tags is first cleaned line by line (whitespace that
contains a line break is dropped, and a text that cleans to the empty string
produces no child at all).  The embedding keeps the text of the source file as
it is written, line breaks and indentation included, and applies that
cleaning rule in `jsx`.
-/

namespace WBCalc

/-- The type of an element: a lower-case JSX tag is a host element named by a
string, an upper-case JSX tag is a reference to a component in scope. -/
inductive ElemType where
  | host (tag : String)
  | component (name : String)
  deriving DecidableEq, Repr

/-- The view tree: a text node or an element with its type, its attributes
(in source order) and its children. -/
inductive View where
  | text (value : String)
  | element (type : ElemType) (props : List (String × String)) (children : List View)
  deriving Repr

/-! ## JSX text cleaning -/

/-- Splits a text at every line feed.  The result always has at least one line. -/
def splitLines : List Char → List (List Char)
  | [] => [[]]
  | c :: cs =>
    match splitLines cs with
    | [] => if c = '\n' then [[], []] else [[c]]
    | l :: ls => if c = '\n' then [] :: l :: ls else (c :: l) :: ls

/-- Index of the last line that holds a character other than space and tab
(`0` when there is none). -/
def lastNonEmptyLine (lines : List (List Char)) : Nat :=
  lines.enum.foldl
    (fun acc il => if il.2.any (fun c => c != ' ' && c != '\t') then il.1 else acc) 0

/-- One line of a JSX text: tabs become spaces, leading spaces go unless the
line is the first one, trailing spaces go unless the line is the last one. -/
def cleanLine (isFirstLine isLastLine : Bool) (line : List Char) : List Char :=
  let l0 := line.map (fun c => if c = '\t' then ' ' else c)
  let l1 := if isFirstLine then l0 else l0.dropWhile (fun c => c == ' ')
  if isLastLine then l1 else (l1.reverse.dropWhile (fun c => c == ' ')).reverse

/-- The cleaned value of a JSX text: the non-empty cleaned lines, each but the
last non-empty one followed by a single space. -/
def cleanJSXText (raw : String) : String :=
  let lines := splitLines raw.data
  let last := lastNonEmptyLine lines
  let n := lines.length
  String.mk (lines.enum.foldl
    (fun str il =>
      let t := cleanLine (il.1 == 0) (il.1 + 1 == n) il.2
      if t.isEmpty then str else str ++ (if il.1 == last then t else t ++ [' ']))
    [])

/-- The children contributed by one JSX child: an element is kept, a text is
cleaned and dropped when nothing is left of it. -/
def jsxChild : View → List View
  | .text raw =>
    let s := cleanJSXText raw
    if s = "" then [] else [.text s]
  | .element t p cs => [.element t p cs]

/-- The element denoted by a JSX expression. -/
def jsx (type : ElemType) (props : List (String × String)) (children : List View) : View :=
  .element type props (children.flatMap jsxChild)

/-! ## The component -/

/-- The component `Link` imported from the routing library. -/
def Link : ElemType := .component "Link"

/-- The component `Home`.  The source function declares no parameter, so
whatever it is called with is ignored. -/
def Home {α : Type} (_props : α) : View :=
  jsx (.host "div")
    [("className", "flex flex-col items-center justify-center min-h-[80vh] px-4")]
    [ .text "\n      ",
      jsx (.host "h1")
        [("className", "text-4xl md:text-5xl font-bold text-center mb-6 text-wb-accent")]
        [.text "\n        Юнит-калькулятор Wildberries\n      "],
      .text "\n      ",
      jsx (.host "p")
        [("className", "text-lg text-center mb-8 text-wb-light max-w-2xl")]
        [.text "\n        Рассчитайте юнит-экономику ваших товаров на маркетплейсе Wildberries быстро и удобно.\n      "],
      .text "\n      ",
      jsx Link
        [("to", "/calculator"),
         ("className", "px-6 py-3 bg-wb-accent text-white font-semibold rounded-lg shadow-md hover:bg-[#8a3fd9] focus:outline-none focus:ring-2 focus:ring-wb-accent focus:ring-opacity-50 transition duration-300")]
        [.text "\n        Начать расчёт\n      "],
      .text "\n    " ]

/-! ## Observations on a view tree -/

mutual
/-- Every node of a tree, the tree itself first, in document order. -/
def View.nodes : View → List View
  | .text s => [.text s]
  | .element t p cs => .element t p cs :: View.nodesOfList cs
/-- Every node of a list of trees. -/
def View.nodesOfList : List View → List View
  | [] => []
  | c :: cs => c.nodes ++ View.nodesOfList cs
end

mutual
/-- The text content of a node: the concatenation of the text nodes below it. -/
def View.textContent : View → String
  | .text s => s
  | .element _ _ cs => View.textContentOfList cs
/-- The concatenated text content of a list of nodes. -/
def View.textContentOfList : List View → String
  | [] => ""
  | c :: cs => c.textContent ++ View.textContentOfList cs
end

/-- Whether a node is an element. -/
def View.isElement : View → Bool
  | .text _ => false
  | .element _ _ _ => true

/-- The type of a node, when it is an element. -/
def View.type? : View → Option ElemType
  | .text _ => none
  | .element t _ _ => some t

/-- The attributes of a node (none for a text). -/
def View.props : View → List (String × String)
  | .text _ => []
  | .element _ p _ => p

/-- The direct children of a node (none for a text). -/
def View.children : View → List View
  | .text _ => []
  | .element _ _ cs => cs

/-- The elements of the given type anywhere in a tree, in document order. -/
def View.elementsOfType (t : ElemType) (v : View) : List View :=
  v.nodes.filter (fun n => n.type? == some t)

/-- The value of a text node. -/
def View.text? : View → Option String
  | .text s => some s
  | .element _ _ _ => none

/-- The strings a node carries itself: its value for a text, the values of its
attributes for an element. -/
def View.ownStrings : View → List String
  | .text s => [s]
  | .element _ p _ => p.map Prod.snd

/-- The route a node asks the router for when the user activates it.  Only the
routing library's `Link` reacts to activation, and it asks for the value of its
`to` attribute; no other node of this program carries a handler. -/
def View.navigationRequest? : View → Option String
  | .element (.component "Link") p _ => p.lookup "to"
  | _ => none

/-! ## The tree that `Home` returns -/

/-- The tree written out: what the JSX expression of `Home` denotes. -/
def homeTree : View :=
  .element (.host "div")
    [("className", "flex flex-col items-center justify-center min-h-[80vh] px-4")]
    [ .element (.host "h1")
        [("className", "text-4xl md:text-5xl font-bold text-center mb-6 text-wb-accent")]
        [.text "Юнит-калькулятор Wildberries"],
      .element (.host "p")
        [("className", "text-lg text-center mb-8 text-wb-light max-w-2xl")]
        [.text "Рассчитайте юнит-экономику ваших товаров на маркетплейсе Wildberries быстро и удобно."],
      .element (.component "Link")
        [("to", "/calculator"),
         ("className", "px-6 py-3 bg-wb-accent text-white font-semibold rounded-lg shadow-md hover:bg-[#8a3fd9] focus:outline-none focus:ring-2 focus:ring-wb-accent focus:ring-opacity-50 transition duration-300")]
        [.text "Начать расчёт"] ]

/-! ## The function as it is written, and what a call of it does

The sections above give the tree that the body of `Home` denotes.  What
follows keeps the function itself as syntax, parameter list and statements,
and evaluates a call of it: the arguments are bound to the parameters, the
statements run in order, identifiers are resolved in the parameters, then in
the imports of the module, then in the global variables, and the outcome is
either an error or the returned value together with the global variables as
the call leaves them.  A call can therefore fail, read its arguments and
write variables; whether a given function does is read off its text. -/

/-- The values that reach a function or leave it. -/
inductive JSValue where
  | undefined
  | string (s : String)
  | number (n : Int)
  | object (fields : List (String × String))
  | imported (pkg name : String)
  | element (v : View)
  deriving Repr

/-- Variables and their values, the innermost binding first. -/
abbrev Scope := List (String × JSValue)

/-- The ways a call ends without a value. -/
inductive JSError where
  | referenceError (name : String)
  | typeError (name : String)
  | thrown (v : JSValue)
  deriving Repr

/-- Expressions: a string literal, an identifier, the literal text between two
JSX tags, and a JSX element with string attributes. -/
inductive Expr where
  | str (s : String)
  | ident (name : String)
  | jsxText (raw : String)
  | jsxElement (type : ElemType) (attrs : List (String × String)) (children : List Expr)
  deriving Repr

/-- Statements of a function body. -/
inductive Stmt where
  | ret (e : Expr)
  | throw (e : Expr)
  | assign (name : String) (e : Expr)
  deriving Repr

/-- An arrow function: its parameter names and the statements of its body. -/
structure ArrowFn where
  params : List String
  body : List Stmt
  deriving Repr

/-- The value of an identifier: the parameters shadow the imports, the imports
shadow the global variables, and an unbound identifier is a reference error. -/
def resolve (locals imports globals : Scope) (x : String) : Except JSError JSValue :=
  match locals.lookup x with
  | some v => .ok v
  | none =>
    match imports.lookup x with
    | some v => .ok v
    | none =>
      match globals.lookup x with
      | some v => .ok v
      | none => .error (.referenceError x)

/-- The type of a JSX element is evaluated too: a host tag is a string, a
component tag is an identifier that has to be bound. -/
def resolveType (locals imports globals : Scope) : ElemType → Except JSError ElemType
  | .host tag => .ok (.host tag)
  | .component x =>
    match resolve locals imports globals x with
    | .error e => .error e
    | .ok _ => .ok (.component x)

/-- The children that the value of a JSX child contributes. -/
def childOfValue : JSValue → List View
  | .element v => [v]
  | .string s => if s = "" then [] else [.text s]
  | .number n => [.text (toString n)]
  | .undefined => []
  | .object _ => []
  | .imported _ _ => []

mutual
/-- The value of an expression.  Building a JSX element is a call of
`React.createElement`, so `React` has to be bound as well. -/
def evalExpr (locals imports globals : Scope) : Expr → Except JSError JSValue
  | .str s => .ok (.string s)
  | .ident x => resolve locals imports globals x
  | .jsxText raw => .ok (.string (cleanJSXText raw))
  | .jsxElement t attrs children =>
    match resolve locals imports globals "React" with
    | .error e => .error e
    | .ok _ =>
      match resolveType locals imports globals t with
      | .error e => .error e
      | .ok ty =>
        match evalChildren locals imports globals children with
        | .error e => .error e
        | .ok cs => .ok (.element (.element ty attrs cs))
/-- The children of a JSX element, evaluated from left to right. -/
def evalChildren (locals imports globals : Scope) : List Expr → Except JSError (List View)
  | [] => .ok []
  | c :: cs =>
    match evalExpr locals imports globals c with
    | .error e => .error e
    | .ok v =>
      match evalChildren locals imports globals cs with
      | .error e => .error e
      | .ok vs => .ok (childOfValue v ++ vs)
end

/-- Binds the parameters to the arguments: a missing argument is `undefined`,
an argument without a parameter is bound to nothing. -/
def bindParams : List String → List JSValue → Scope
  | [], _ => []
  | p :: ps, [] => (p, .undefined) :: bindParams ps []
  | p :: ps, a :: as => (p, a) :: bindParams ps as

/-- Runs the statements of a body: `return` ends the call with a value,
`throw` ends it with an error, an assignment writes a parameter or a global
variable (an import cannot be written), and a body that runs out returns
`undefined`. -/
def execBody (imports : Scope) : List Stmt → Scope → Scope → Except JSError (JSValue × Scope)
  | [], _, globals => .ok (.undefined, globals)
  | .ret e :: _, locals, globals =>
    match evalExpr locals imports globals e with
    | .error err => .error err
    | .ok v => .ok (v, globals)
  | .throw e :: _, locals, globals =>
    match evalExpr locals imports globals e with
    | .error err => .error err
    | .ok v => .error (.thrown v)
  | .assign x e :: rest, locals, globals =>
    match evalExpr locals imports globals e with
    | .error err => .error err
    | .ok v =>
      if (locals.lookup x).isSome then execBody imports rest ((x, v) :: locals) globals
      else if (imports.lookup x).isSome then .error (.typeError x)
      else execBody imports rest locals ((x, v) :: globals)

/-- A call of an arrow function with the given arguments and global variables:
an error, or the returned value and the global variables after the call. -/
def callArrow (imports : Scope) (f : ArrowFn) (args : List JSValue) (globals : Scope) :
    Except JSError (JSValue × Scope) :=
  execBody imports f.body (bindParams f.params args) globals

/-- The two imports at the head of `Home.js`. -/
def moduleImports : Scope :=
  [("React", .imported "react" "default"), ("Link", .imported "react-router-dom" "Link")]

/-- The function `Home` as written: no parameter, and a body that is a single
`return` of the JSX expression. -/
def Home.source : ArrowFn where
  params := []
  body :=
    [ .ret
        (.jsxElement (.host "div")
          [("className", "flex flex-col items-center justify-center min-h-[80vh] px-4")]
          [ .jsxText "\n      ",
            .jsxElement (.host "h1")
              [("className", "text-4xl md:text-5xl font-bold text-center mb-6 text-wb-accent")]
              [.jsxText "\n        Юнит-калькулятор Wildberries\n      "],
            .jsxText "\n      ",
            .jsxElement (.host "p")
              [("className", "text-lg text-center mb-8 text-wb-light max-w-2xl")]
              [.jsxText "\n        Рассчитайте юнит-экономику ваших товаров на маркетплейсе Wildberries быстро и удобно.\n      "],
            .jsxText "\n      ",
            .jsxElement (.component "Link")
              [("to", "/calculator"),
               ("className", "px-6 py-3 bg-wb-accent text-white font-semibold rounded-lg shadow-md hover:bg-[#8a3fd9] focus:outline-none focus:ring-2 focus:ring-wb-accent focus:ring-opacity-50 transition duration-300")]
              [.jsxText "\n        Начать расчёт\n      "],
            .jsxText "\n    " ]) ]

theorem Home_eq_homeTree {α : Type} (props : α) : Home props = homeTree := by
  rfl

/-- C1: the tree returned by `Home` has exactly one `h1` element, whose text
content is the heading text, and exactly one `p` element, whose text content is
the description text, both without the surrounding line breaks and indentation
of the source. -/
theorem Home_heading_and_description {α : Type} (props : α) :
    ((Home props).elementsOfType (.host "h1")).map View.textContent
        = ["Юнит-калькулятор Wildberries"]
    ∧ ((Home props).elementsOfType (.host "p")).map View.textContent
        = ["Рассчитайте юнит-экономику ваших товаров на маркетплейсе Wildberries быстро и удобно."] := by
  rw [Home_eq_homeTree]
  decide

/-- C2: over all nodes of the tree returned by `Home` there is exactly one
`Link` element, no anchor and no button; the elements of the tree are a `div`,
an `h1`, a `p` and that `Link`, and nothing else. -/
theorem Home_single_navigation_control {α : Type} (props : α) :
    ((Home props).elementsOfType Link).length = 1
    ∧ ((Home props).elementsOfType (.host "a")).length = 0
    ∧ ((Home props).elementsOfType (.host "button")).length = 0
    ∧ (Home props).nodes.filterMap View.type?
        = [.host "div", .host "h1", .host "p", Link] := by
  rw [Home_eq_homeTree]
  decide

/-- C3: the `to` attribute of the `Link` element of the tree returned by `Home`
is `/calculator`; activating nodes of the tree can request that route and no
other; and `/calculator` is the only string of the tree (attribute values and
texts) in which a slash occurs. -/
theorem Home_navigates_to_calculator {α : Type} (props : α) :
    ((Home props).elementsOfType Link).map (fun n => n.props.lookup "to")
        = [some "/calculator"]
    ∧ (Home props).nodes.filterMap View.navigationRequest? = ["/calculator"]
    ∧ ((Home props).nodes.flatMap View.ownStrings).filter (fun s => s.data.contains '/')
        = ["/calculator"] := by
  rw [Home_eq_homeTree]
  decide

/-- C4: `Home` returns one `div` element with exactly three children, in this
order an `h1`, a `p` and a `Link`, and each of the three has one text node as
its only child. -/
theorem Home_tree_shape {α : Type} (props : α) :
    ∃ (dp hp pp lp : List (String × String)) (t1 t2 t3 : String),
      Home props =
        .element (.host "div") dp
          [ .element (.host "h1") hp [.text t1],
            .element (.host "p") pp [.text t2],
            .element Link lp [.text t3] ] :=
  ⟨_, _, _, _, _, _, _, Home_eq_homeTree props⟩

/-- A call can read its argument: a function that returns its parameter gives
back different values for different arguments. -/
theorem callArrow_reads_argument :
    callArrow moduleImports ⟨["props"], [.ret (.ident "props")]⟩ [.string "a"] []
        = .ok (.string "a", [])
    ∧ callArrow moduleImports ⟨["props"], [.ret (.ident "props")]⟩ [.string "b"] []
        = .ok (.string "b", []) :=
  ⟨rfl, rfl⟩

/-- A call can fail: by a `throw`, and by an identifier that is not bound, as
the tag `Link` is when the module does not import it. -/
theorem callArrow_can_fail :
    callArrow moduleImports ⟨[], [.throw (.str "no")]⟩ [] []
        = .error (.thrown (.string "no"))
    ∧ callArrow [("React", .imported "react" "default")] Home.source [] []
        = .error (.referenceError "Link")
    ∧ callArrow [] Home.source [] [] = .error (.referenceError "React") :=
  ⟨rfl, rfl, rfl⟩

/-- A call can write a global variable. -/
theorem callArrow_can_write :
    callArrow moduleImports ⟨[], [.assign "count" (.str "1"), .ret (.str "")]⟩ [] []
        = .ok (.string "", [("count", .string "1")]) :=
  rfl

/-- C5: `Home` has no parameters, no state and no error conditions.  There is
one tree such that every call of the function as written, with any list of
argument values and any global variables, ends without error, returns that tree
and leaves the global variables as they were; the same tree is the value of
`Home` at every argument of every type. -/
theorem Home_constant :
    ∃ v : View,
      (∀ (args : List JSValue) (globals : Scope),
        callArrow moduleImports Home.source args globals = .ok (.element v, globals))
      ∧ Home.source.params = []
      ∧ ∀ (α : Type) (props : α), Home props = v :=
  ⟨homeTree, fun _ _ => rfl, rfl, fun _ props => Home_eq_homeTree props⟩

/-- C6: the text content of the `Link` element of the tree returned by `Home` is
the label `Начать расчёт`; the texts of the tree are the heading, the
description and that label, and the three are pairwise distinct. -/
theorem Home_link_label {α : Type} (props : α) :
    ((Home props).elementsOfType Link).map View.textContent = ["Начать расчёт"]
    ∧ (Home props).nodes.filterMap View.text?
        = ["Юнит-калькулятор Wildberries",
           "Рассчитайте юнит-экономику ваших товаров на маркетплейсе Wildberries быстро и удобно.",
           "Начать расчёт"]
    ∧ ((Home props).nodes.filterMap View.text?).Nodup := by
  rw [Home_eq_homeTree]
  decide

end WBCalc
